import Mathlib

/-!
Verification of the AEM project generator's configuration-resolution and
composition engine, shallowly embedded from `src/generators/app/index.js`
(the root `AEMGenerator`) and `src/unnamed/part_000` (the
`IntegrationTestsGenerator`).  JavaScript property bags become structures of
`Option`-valued fields (`none` = absent/undefined), lodash `_.defaults`
becomes a keep-left merge, JavaScript `||` becomes a truthiness-guarded
choice, promise chains become `Except`-valued pipelines, and the module-global
`/[^a-zA-Z.]/g` regex becomes an explicit `lastIndex`-threaded test.
-/

namespace AemGen

/-! ### JavaScript value helpers -/

/-- Truthiness of an optional string: `undefined` and `""` are falsy. -/
def jsTruthy : Option String → Bool
  | none => false
  | some s => s != ""

/-- Truthiness of an optional boolean: `undefined` and `false` are falsy. -/
def jsTruthyB : Option Bool → Bool
  | none => false
  | some b => b

/-- `_.defaults` on one string-valued key: the destination value is kept
whenever it is defined (not `undefined`), otherwise the source fills it. -/
def jsDefault (dst src : Option String) : Option String :=
  match dst with
  | some v => some v
  | none => src

/-- `_.defaults` on one boolean-valued key. -/
def jsDefaultB (dst src : Option Bool) : Option Bool :=
  match dst with
  | some v => some v
  | none => src

/-- JavaScript `a || b` on optional strings: `a` when truthy, else `b`. -/
def jsOr (a b : Option String) : Option String :=
  if jsTruthy a then a else b

/-- JavaScript `a || b` where `a` is an optional boolean and `b` a boolean
literal: the value is `true` exactly when `a` is truthy or `b` is. -/
def jsOrB (a : Option Bool) (b : Bool) : Bool :=
  match a with
  | some true => true
  | _ => b

@[simp] theorem jsDefault_some (v : String) (s : Option String) :
    jsDefault (some v) s = some v := rfl

@[simp] theorem jsDefault_none (s : Option String) : jsDefault none s = s := rfl

@[simp] theorem jsDefaultB_some (v : Bool) (s : Option Bool) :
    jsDefaultB (some v) s = some v := rfl

@[simp] theorem jsDefaultB_none (s : Option Bool) : jsDefaultB none s = s := rfl

theorem jsDefault_none_right (d : Option String) : jsDefault d none = d := by
  cases d <;> rfl

@[simp] theorem jsTruthy_none : jsTruthy none = false := rfl

@[simp] theorem jsTruthyB_none : jsTruthyB none = false := rfl

@[simp] theorem jsOr_none (b : Option String) : jsOr none b = b := rfl

/-! ### Root property resolution (`AEMGenerator.initializing`)

`src/generators/app/index.js` lines 60-101.  The root resolves the keys
`unique = ['groupId', 'version', 'aemVersion']` (everything else is picked
away by `_.pick`), so a root bag is a structure of those three fields. -/

/-- The three root-unique properties, each possibly absent. -/
structure Bag where
  groupId : Option String
  version : Option String
  aemVersion : Option String
  deriving DecidableEq

/-- The empty bag `{}`. -/
def Bag.empty : Bag := ⟨none, none, none⟩

/-- `_.defaults(dst, src)` restricted to the three unique keys. -/
def jsDefaults (dst src : Bag) : Bag :=
  ⟨jsDefault dst.groupId src.groupId,
   jsDefault dst.version src.version,
   jsDefault dst.aemVersion src.aemVersion⟩

/-- The flat bag read from an existing POM descriptor: `direct` is
`_.omit(pom, ['pomProperties'])` restricted to the unique keys, and
`aemVersionProp` is `pom.pomProperties['aem.version']` (with `none` covering a
missing `pomProperties` object or a missing key). -/
structure Pom where
  direct : Bag
  aemVersionProp : Option String
  deriving DecidableEq

/-- The aemVersion value accumulated from options, config and the POM's
direct values, just before the guarded `pomProperties['aem.version']`
adoption on line 77. -/
def preAem (options config : Bag) (pom : Pom) : Option String :=
  jsDefault (jsDefault options.aemVersion config.aemVersion) pom.direct.aemVersion

/-- `AEMGenerator.initializing` property resolution (lines 70-89):
defaults-merge of CLI options, persisted Yeoman config and the POM's direct
values; guarded adoption of `pomProperties['aem.version']` via `||`; a
defaults-merge of the shared properties (`GeneratorCommons.props`, whose code
is not under `src/`, is modelled as an opaque additional source bag at its
position in the chain); hard-coded fallbacks applied only under the defaults
flag. -/
def appInitProps (options config : Bag) (pom : Pom) (shared : Bag)
    (useDefaults : Bool) : Bag :=
  let props := jsDefaults (jsDefaults Bag.empty options) config
  let props := jsDefaults props pom.direct
  let props :=
    if jsTruthy pom.aemVersionProp then
      { props with aemVersion := jsOr props.aemVersion pom.aemVersionProp }
    else props
  let props := jsDefaults props shared
  if useDefaults then jsDefaults props ⟨none, some "1.0.0-SNAPSHOT", some "cloud"⟩
  else props

/-- The options record handed to `AEMGenerator.initializing`: the
`generateInto` key (deleted on line 67) plus the unique-key bag. -/
structure AppOptions where
  generateInto : Option String
  bag : Bag
  deriving DecidableEq

/-- The whole of `AEMGenerator.initializing` as a state transformer on the
options record (lines 66-89): computes `dest` from `generateInto` falling
back to the context-relative path, deletes `generateInto` from the input
options bag, reads the POM at `dest`, and resolves the property bag.
Returns the resolved bag together with the options record as the code
leaves it. -/
def appInitializing (options : AppOptions) (relDest : String) (config : Bag)
    (readPom : String → Pom) (shared : Bag) (useDefaults : Bool) :
    Bag × AppOptions :=
  let dest := if jsTruthy options.generateInto then options.generateInto.getD "" else relDest
  let options' : AppOptions := { options with generateInto := none }
  (appInitProps options'.bag config (readPom dest) shared useDefaults, options')

/-! ### The integration-tests generator (`src/unnamed/part_000`) -/

/-- A character admitted by the package pattern: the regex `[^a-zA-Z.]`
matches exactly the characters that are not letters or periods. -/
def isValidPackageChar (c : Char) : Bool := c.isAlpha || c == '.'

/-- First index at or after `start` holding a character matched by
`[^a-zA-Z.]`. -/
def findInvalid : List Char → Nat → Option Nat
  | [], _ => none
  | c :: cs, 0 =>
      if isValidPackageChar c then (findInvalid cs 0).map (· + 1) else some 0
  | _ :: cs, n + 1 => (findInvalid cs n).map (· + 1)

/-- `invalidPackageRegex.test(s)` where `invalidPackageRegex = /[^a-zA-Z.]/g`
(line 28).  Because of the `g` flag the regex object is stateful: the search
starts at `lastIndex`; on a match `lastIndex` advances past it, on failure it
resets to 0.  Returns the test result and the new `lastIndex`. -/
def regexTestG (lastIndex : Nat) (s : String) : Bool × Nat :=
  match findInvalid s.data lastIndex with
  | some i => (true, i + 1)
  | none => (false, 0)

/-- The parent property bag as consumed by the integration-tests generator
(`this.props.parent`): only `groupId` and `aemVersion` are read. -/
structure ParentBag where
  groupId : Option String
  aemVersion : Option String
  deriving DecidableEq

/-- The invocation options of the integration-tests generator restricted to
`uniqueProperties = ['package', 'publish']` plus the defaults flag. -/
structure ITOptions where
  package : Option String
  publish : Option Bool
  defaults : Bool
  deriving DecidableEq

/-- The persisted module configuration for this module's path, restricted to
the two unique properties. -/
structure ITPersisted where
  package : Option String
  publish : Option Bool
  deriving DecidableEq

/-- The integration-tests generator's property bag after initializing. -/
structure ITProps where
  package : Option String
  publish : Option Bool
  parent : ParentBag
  deriving DecidableEq

/-- The validation step of `IntegrationTestsGenerator.initializing`
(lines 71-74): when `props.package` is truthy and the stateful regex matches
it, the key is deleted from the bag.  Threads the regex `lastIndex`. -/
def itDiscardInvalid (lastIndex : Nat) (props : ITProps) : ITProps × Nat :=
  if jsTruthy props.package then
    let t := regexTestG lastIndex (props.package.getD "")
    (if t.1 then { props with package := none } else props, t.2)
  else (props, lastIndex)

/-- Modelled from the spec: the shared `_initializing` mixin
(`lib/module-mixins.js`, not under `src/`).  Per §4.1 it fills properties
still unset from the persisted module configuration (lower precedence than
the invocation options already in the bag) and attaches the parent's resolved
bag as a read-only `parent` reference. -/
def modInitializing (props : ITProps) (persisted : ITPersisted)
    (parent : ParentBag) : ITProps :=
  { package := jsDefault props.package persisted.package,
    publish := jsDefaultB props.publish persisted.publish,
    parent := parent }

/-- `IntegrationTestsGenerator.initializing` (lines 68-85) with the
module-global regex state threaded explicitly: pick the unique options,
discard an invalid package, run the shared `_initializing`, fill `package`
from the parent `groupId` when that is truthy, and under the defaults flag
set `publish` via `this.props.publish || true`. -/
def itInitializing (lastIndex : Nat) (options : ITOptions)
    (persisted : ITPersisted) (parent : ParentBag) : ITProps × Nat :=
  let props : ITProps := ⟨options.package, options.publish, ⟨none, none⟩⟩
  let st := itDiscardInvalid lastIndex props
  let props := modInitializing st.1 persisted parent
  let props :=
    if jsTruthy props.parent.groupId then
      { props with package := jsOr props.package props.parent.groupId }
    else props
  let props :=
    if options.defaults then { props with publish := some (jsOrB props.publish true) }
    else props
  (props, st.2)

/-! ### The composition/default phase (`IntegrationTestsGenerator.default`) -/

/-- A persisted module record as consulted by the duplicate-module check:
only its `moduleType` tag is read. -/
structure ModuleRecord where
  moduleType : Option String
  deriving DecidableEq

/-- What the default phase did: whether the duplicate-module scan was
executed, and whether the app generator was composed. -/
structure DefaultOutcome where
  ranCheck : Bool
  composedApp : Bool
  deriving DecidableEq

/-- The per-record condition of the scan on lines 135-139: the record's
`moduleType` is defined, equals `'tests-it'`, and the record's key differs
from this module's relative path. -/
def conflicting (relativePath : String) (entry : String × ModuleRecord) : Bool :=
  match entry.2.moduleType with
  | some t => t == "tests-it" && entry.1 != relativePath
  | none => false

/-- `IntegrationTestsGenerator.default` (lines 132-145): when
`this.options.parent` is empty, scan all persisted records and throw on a
conflicting integration-tests record, then compose the app generator; when a
parent is present, do nothing at all. -/
def defaultPhase (parentOption : List (String × String))
    (config : List (String × ModuleRecord)) (relativePath : String) :
    Except String DefaultOutcome :=
  if parentOption.isEmpty then
    if config.any (conflicting relativePath) then
      Except.error "Refusing to create a second Integration Testing module."
    else Except.ok ⟨true, true⟩
  else Except.ok ⟨false, false⟩

/-! ### Artifact coordinates and the writing phase -/

/-- A (groupId, artifactId) artifact coordinate. -/
structure Coordinate where
  groupId : String
  artifactId : String
  deriving DecidableEq

/-- `testClientCoordinates` (lines 33-45): a pure lookup on the target
platform tag (`this.props.parent.aemVersion`, possibly undefined). -/
def testClientCoordinates (version : Option String) : Coordinate :=
  if version == some "cloud" then
    ⟨"com.adobe.cq", "aem-cloud-testing-clients"⟩
  else
    ⟨"com.adobe.cq", "cq-testing-clients-65"⟩

/-- `Promise.then` with a callable fulfillment handler: bind on the
rejection-tracking result. -/
def thenFn {α β : Type} (p : Except String α) (f : α → Except String β) :
    Except String β :=
  match p with
  | Except.error e => Except.error e
  | Except.ok v => f v

/-- `Promise.then` applied to a NON-callable argument: per the Promise
specification the argument is ignored and the settled value passes through
unchanged; a rejection of the ignored promise never reaches this chain. -/
def thenNonFn {α β : Type} (p : Except String α) (_ignored : Except String β) :
    Except String α :=
  p

/-- The writing-phase state: the two metadata slots and whether `_writing`
(file emission) was invoked. -/
structure WritingState where
  testingClient : Option String
  aem : Option String
  wroteFiles : Bool
  deriving DecidableEq

/-- `IntegrationTestsGenerator.writing`'s promise chain (lines 155-164), with
the external metadata service `latest` (`_latestRelease`, not under `src/`)
and the platform-API coordinate table `apiCoordinates` (`_apiCoordinates`,
not under `src/`) as parameters.  The chain value alongside the state models
the JavaScript value flowing through the chain (`none` = undefined).  On
line 159 the second `_latestRelease(...)` promise is handed to `.then`
directly — it is not a function, so `thenNonFn` applies. -/
def itWriting (latest : Coordinate → Except String String)
    (apiCoordinates : Option String → Coordinate)
    (parentAemVersion : Option String) : Except String WritingState :=
  let s0 : WritingState := ⟨none, none, false⟩
  let chain1 :=
    thenFn (thenFn (latest (testClientCoordinates parentAemVersion))
        (fun v => Except.ok (s0, some v)))
      (fun sv => Except.ok ({ sv.1 with testingClient := sv.2 },
        (none : Option String)))
  let chain2 := thenNonFn chain1 (latest (apiCoordinates parentAemVersion))
  thenFn chain2 (fun sv =>
    Except.ok { sv.1 with aem := sv.2, wroteFiles := true })

/-- Template selection in `IntegrationTestsGenerator.writing` (lines 148-153):
the shared templates, then the publish templates exactly when the resolved
publish flag is truthy.  The shared `_listTemplates` mixin is not under
`src/`; per the spec it is a deterministic pure lookup of the named set's
ordered identifiers, passed here as a parameter. -/
def selectTemplates (listTemplates : String → List String)
    (publish : Option Bool) : List String :=
  listTemplates "shared" ++ (if jsTruthyB publish then listTemplates "publish" else [])

/-! ### Regex helper lemmas -/

theorem findInvalid_zero_eq_none_iff (l : List Char) :
    findInvalid l 0 = none ↔ ∀ c ∈ l, isValidPackageChar c = true := by
  induction l with
  | nil => simp [findInvalid]
  | cons c cs ih =>
      by_cases h : isValidPackageChar c = true
      · simp [findInvalid, h, Option.map_eq_none', ih]
      · simp [findInvalid, h]

theorem regexTestG_zero_false_iff (s : String) :
    (regexTestG 0 s).1 = false ↔ ∀ c ∈ s.data, isValidPackageChar c = true := by
  rw [← findInvalid_zero_eq_none_iff]
  unfold regexTestG
  cases h : findInvalid s.data 0 <;> simp [h]

theorem regexTestG_zero_snd (s : String)
    (h : ∀ c ∈ s.data, isValidPackageChar c = true) : (regexTestG 0 s).2 = 0 := by
  unfold regexTestG
  rw [← findInvalid_zero_eq_none_iff] at h
  simp [h]

theorem conflicting_eq_true (relativePath : String) (e : String × ModuleRecord) :
    conflicting relativePath e = true ↔
      e.2.moduleType = some "tests-it" ∧ e.1 ≠ relativePath := by
  unfold conflicting
  cases h : e.2.moduleType with
  | none => simp
  | some t => simp [h]

theorem itDiscardInvalid_package_none (p : String) (pub : Option Bool)
    (par : ParentBag) (hex : ∃ c ∈ p.data, isValidPackageChar c = false) :
    (itDiscardInvalid 0 ⟨some p, pub, par⟩).1.package = none := by
  have hp : p ≠ "" := by
    rintro rfl
    obtain ⟨c, hc, -⟩ := hex
    rw [show ("" : String).data = [] from rfl] at hc
    exact absurd hc (List.not_mem_nil c)
  have ht : jsTruthy (some p) = true := by
    unfold jsTruthy
    exact bne_iff_ne.mpr hp
  have hfst : (regexTestG 0 p).1 = true := by
    obtain ⟨c, hc, hv⟩ := hex
    cases hf : (regexTestG 0 p).1 with
    | true => rfl
    | false =>
        have hvt := (regexTestG_zero_false_iff p).mp hf c hc
        rw [hvt] at hv
        exact absurd hv (by simp)
  simp [itDiscardInvalid, ht, hfst]

theorem itDiscardInvalid_package_kept (p : String) (pub : Option Bool)
    (par : ParentBag) (hall : ∀ c ∈ p.data, isValidPackageChar c = true) :
    (itDiscardInvalid 0 ⟨some p, pub, par⟩).1.package = some p := by
  by_cases hp : p = ""
  · subst hp
    rfl
  · have ht : jsTruthy (some p) = true := by
      unfold jsTruthy
      exact bne_iff_ne.mpr hp
    have hfst : (regexTestG 0 p).1 = false := (regexTestG_zero_false_iff p).mpr hall
    simp [itDiscardInvalid, ht, hfst]

theorem itInitializing_package_from_parent (opts : ITOptions) (pers : ITPersisted)
    (par : ParentBag)
    (hd : (itDiscardInvalid 0 ⟨opts.package, opts.publish, ⟨none, none⟩⟩).1.package = none)
    (hpers : pers.package = none) (hg : jsTruthy par.groupId = true) :
    (itInitializing 0 opts pers par).1.package = par.groupId := by
  unfold itInitializing
  by_cases hdef : opts.defaults <;>
    simp [modInitializing, hd, hpers, hg, hdef]

@[simp] theorem jsTruthy_some_empty : jsTruthy (some "") = false := rfl

theorem appInitProps_groupId (o c : Bag) (pom : Pom) (s : Bag) (u : Bool) :
    (appInitProps o c pom s u).groupId =
      jsDefault (jsDefault (jsDefault o.groupId c.groupId) pom.direct.groupId)
        s.groupId := by
  unfold appInitProps jsDefaults Bag.empty
  by_cases h : jsTruthy pom.aemVersionProp <;> by_cases hu : u <;>
    simp [h, hu, jsDefault_none_right]

theorem appInitProps_version (o c : Bag) (pom : Pom) (s : Bag) (u : Bool) :
    (appInitProps o c pom s u).version =
      (if u then
        jsDefault (jsDefault (jsDefault (jsDefault o.version c.version)
          pom.direct.version) s.version) (some "1.0.0-SNAPSHOT")
       else
        jsDefault (jsDefault (jsDefault o.version c.version) pom.direct.version)
          s.version) := by
  unfold appInitProps jsDefaults Bag.empty
  by_cases h : jsTruthy pom.aemVersionProp <;> by_cases hu : u <;>
    simp [h, hu]

theorem appInitProps_aemVersion (o c : Bag) (pom : Pom) (s : Bag) (u : Bool) :
    (appInitProps o c pom s u).aemVersion =
      (if u then
        jsDefault (jsDefault (if jsTruthy pom.aemVersionProp then
            jsOr (preAem o c pom) pom.aemVersionProp else preAem o c pom)
          s.aemVersion) (some "cloud")
       else
        jsDefault (if jsTruthy pom.aemVersionProp then
            jsOr (preAem o c pom) pom.aemVersionProp else preAem o c pom)
          s.aemVersion) := by
  unfold appInitProps jsDefaults Bag.empty preAem
  by_cases h : jsTruthy pom.aemVersionProp <;> by_cases hu : u <;>
    simp [h, hu]

/-! ### The claims -/

/-- C9: `testClientCoordinates` is a pure, stateless lookup on the platform
tag: for input `cloud` it returns the `aem-cloud-testing-clients` coordinate,
and for every other input the `cq-testing-clients-65` coordinate, both under
group `com.adobe.cq`. -/
theorem C9_test_client_lookup :
    testClientCoordinates (some "cloud") =
      ⟨"com.adobe.cq", "aem-cloud-testing-clients"⟩ ∧
    ∀ v : Option String, v ≠ some "cloud" →
      testClientCoordinates v = ⟨"com.adobe.cq", "cq-testing-clients-65"⟩ := by
  refine ⟨rfl, ?_⟩
  intro v hv
  unfold testClientCoordinates
  have hb : (v == some "cloud") = false := beq_eq_false_iff_ne.mpr hv
  simp [hb]

/-- C9 witness: the legacy coordinate is returned for an undefined platform
and for the `6.5` platform. -/
theorem C9_test_client_lookup_witness :
    testClientCoordinates none = ⟨"com.adobe.cq", "cq-testing-clients-65"⟩ ∧
    testClientCoordinates (some "6.5") =
      ⟨"com.adobe.cq", "cq-testing-clients-65"⟩ :=
  ⟨C9_test_client_lookup.2 none (by decide),
   C9_test_client_lookup.2 (some "6.5") (by decide)⟩

/-- C4: the code evaluated at the failing input: with the defaults flag set
and `publish` explicitly supplied as `false`, the fallback
`this.props.publish = this.props.publish || true` (line 83) overrides the
supplied value to `true`; without the flag the supplied `false` is kept.
The claim says an explicitly supplied `false` is never overridden. -/
theorem C4_publish_fallback_overrides_false :
    (itInitializing 0 ⟨none, some false, true⟩ ⟨none, none⟩
        ⟨none, none⟩).1.publish = some true ∧
    (itInitializing 0 ⟨none, some false, false⟩ ⟨none, none⟩
        ⟨none, none⟩).1.publish = some false := by
  decide

/-- C3: the writing-phase chain evaluated at the failing input: with parent
platform `cloud`, the testing-client resolution succeeding with `1.0.0` and
the platform-API resolution failing, the chain still completes with files
written and `props.aem` left undefined — the second resolution neither gates
emission nor propagates its failure, because its promise is handed to
`.then` as a non-function and ignored (line 159).  Only a failure of the
first resolution aborts the write. -/
theorem C3_api_resolution_not_awaited :
    itWriting
        (fun c => if c.artifactId == "aem-cloud-testing-clients" then
          Except.ok "1.0.0" else Except.error "service unavailable")
        (fun _ => ⟨"com.adobe.aem", "aem-sdk-api"⟩) (some "cloud") =
      Except.ok ⟨some "1.0.0", none, true⟩ ∧
    itWriting (fun _ => Except.error "down")
        (fun _ => ⟨"com.adobe.aem", "aem-sdk-api"⟩) (some "cloud") =
      Except.error "down" :=
  ⟨rfl, rfl⟩

/-- C2: the duplicate-module invariant at the root of composition (empty
parent option): if any persisted record is tagged `tests-it` at a path other
than the candidate's, the default phase throws the refusal error; if every
`tests-it` record sits at the candidate's own path, it succeeds, running the
check and composing the app generator (idempotent re-configuration). -/
theorem C2_singleton_invariant (config : List (String × ModuleRecord))
    (relativePath : String) :
    ((∃ e ∈ config, e.2.moduleType = some "tests-it" ∧ e.1 ≠ relativePath) →
      defaultPhase [] config relativePath =
        Except.error "Refusing to create a second Integration Testing module.") ∧
    ((∀ e ∈ config, e.2.moduleType = some "tests-it" → e.1 = relativePath) →
      defaultPhase [] config relativePath = Except.ok ⟨true, true⟩) := by
  constructor
  · rintro ⟨e, he, h1, h2⟩
    have hs : config.any (conflicting relativePath) = true :=
      List.any_eq_true.mpr ⟨e, he, (conflicting_eq_true _ _).mpr ⟨h1, h2⟩⟩
    simp [defaultPhase, hs]
  · intro h
    have hs : config.any (conflicting relativePath) = false := by
      rw [List.any_eq_false]
      intro e he hc
      rcases (conflicting_eq_true _ _).mp hc with ⟨h1, h2⟩
      exact h2 (h e he h1)
    simp [defaultPhase, hs]

/-- C2 witness: with one persisted record `{path: "it", moduleType:
"tests-it"}`, configuring at path `"other"` fails and re-configuring at path
`"it"` succeeds. -/
theorem C2_singleton_invariant_witness :
    defaultPhase [] [("it", ⟨some "tests-it"⟩)] "other" =
      Except.error "Refusing to create a second Integration Testing module." ∧
    defaultPhase [] [("it", ⟨some "tests-it"⟩)] "it" = Except.ok ⟨true, true⟩ :=
  ⟨(C2_singleton_invariant [("it", ⟨some "tests-it"⟩)] "other").1 (by decide),
   (C2_singleton_invariant [("it", ⟨some "tests-it"⟩)] "it").2 (by decide)⟩

/-- C7: a child invocation of the default phase (non-empty parent option)
never runs the duplicate-module scan — the outcome records that the check
was not executed, so its failure branch is unreachable — and composes no
generator of its own. -/
theorem C7_child_skips_invariant_check (parentOption : List (String × String))
    (config : List (String × ModuleRecord)) (relativePath : String)
    (h : parentOption ≠ []) :
    defaultPhase parentOption config relativePath = Except.ok ⟨false, false⟩ := by
  unfold defaultPhase
  have he : parentOption.isEmpty = false := by
    cases parentOption with
    | nil => exact absurd rfl h
    | cons a l => rfl
  simp [he]

/-- C7 witness: with a non-empty parent option, the default phase does
nothing even in the presence of a conflicting persisted record. -/
theorem C7_child_skips_invariant_check_witness :
    defaultPhase [("groupId", "com.adobe")] [("other", ⟨some "tests-it"⟩)] "it" =
      Except.ok ⟨false, false⟩ :=
  C7_child_skips_invariant_check _ _ _ (by decide)

/-- C5: the validation step (with the fresh regex state a first invocation
runs under) discards a supplied package containing any character outside
letters and periods from the bag before interactive resolution, so no
package key from the options source reaches the prompting step; a value
containing only letters and periods is retained. -/
theorem C5_invalid_package_discard (p : String) (pub : Option Bool)
    (par : ParentBag) :
    ((∃ c ∈ p.data, isValidPackageChar c = false) →
      (itDiscardInvalid 0 ⟨some p, pub, par⟩).1.package = none) ∧
    ((∀ c ∈ p.data, isValidPackageChar c = true) →
      (itDiscardInvalid 0 ⟨some p, pub, par⟩).1.package = some p) :=
  ⟨itDiscardInvalid_package_none p pub par,
   itDiscardInvalid_package_kept p pub par⟩

/-- C5 witness: `com123` (contains digits) is discarded, `com.mysite` is
retained. -/
theorem C5_invalid_package_discard_witness :
    (itDiscardInvalid 0 ⟨some "com123", none, ⟨none, none⟩⟩).1.package = none ∧
    (itDiscardInvalid 0 ⟨some "com.mysite", none, ⟨none, none⟩⟩).1.package =
      some "com.mysite" :=
  ⟨(C5_invalid_package_discard "com123" none ⟨none, none⟩).1 (by decide),
   (C5_invalid_package_discard "com.mysite" none ⟨none, none⟩).2 (by decide)⟩

/-- C10: after initializing, when the parent bag's groupId is truthy and the
package ended up unset — never supplied (with nothing persisted), or
supplied invalid and just discarded — the package is set to the parent's
groupId: an invalid supplied package is silently replaced by the parent
group id rather than left unset for re-prompting. -/
theorem C10_package_filled_from_parent (opts : ITOptions) (pers : ITPersisted)
    (par : ParentBag) (hg : jsTruthy par.groupId = true) :
    (opts.package = none → pers.package = none →
      (itInitializing 0 opts pers par).1.package = par.groupId) ∧
    (∀ p : String, opts.package = some p →
      (∃ c ∈ p.data, isValidPackageChar c = false) → pers.package = none →
      (itInitializing 0 opts pers par).1.package = par.groupId) := by
  constructor
  · intro hop hpers
    refine itInitializing_package_from_parent opts pers par ?_ hpers hg
    simp [itDiscardInvalid, hop, jsTruthy]
  · intro p hop hex hpers
    refine itInitializing_package_from_parent opts pers par ?_ hpers hg
    rw [hop]
    exact itDiscardInvalid_package_none p opts.publish ⟨none, none⟩ hex

/-- C10 witness: the invalid supplied package `com123` ends up replaced by
the parent group id `com.adobe`. -/
theorem C10_package_filled_from_parent_witness :
    (itInitializing 0 ⟨some "com123", none, false⟩ ⟨none, none⟩
        ⟨some "com.adobe", none⟩).1.package = some "com.adobe" :=
  (C10_package_filled_from_parent ⟨some "com123", none, false⟩ ⟨none, none⟩
      ⟨some "com.adobe", none⟩ (by decide)).2 "com123" rfl (by decide) rfl

/-- C6: template selection always includes every shared template, includes
the publish set exactly when the resolved publish flag is truthy, places all
shared templates before any publish templates, and is deterministic: equal
flags yield equal sequences. -/
theorem C6_template_gating (listTemplates : String → List String)
    (publish : Option Bool) :
    (∀ t ∈ listTemplates "shared", t ∈ selectTemplates listTemplates publish) ∧
    (jsTruthyB publish = true →
      selectTemplates listTemplates publish =
        listTemplates "shared" ++ listTemplates "publish") ∧
    (jsTruthyB publish = false →
      selectTemplates listTemplates publish = listTemplates "shared") ∧
    (∃ rest, selectTemplates listTemplates publish = listTemplates "shared" ++ rest) ∧
    (∀ publish2 : Option Bool, jsTruthyB publish = jsTruthyB publish2 →
      selectTemplates listTemplates publish = selectTemplates listTemplates publish2) := by
  refine ⟨?_, ?_, ?_, ⟨_, rfl⟩, ?_⟩
  · intro t ht
    exact List.mem_append_left _ ht
  · intro h
    simp [selectTemplates, h]
  · intro h
    simp [selectTemplates, h]
  · intro publish2 h
    simp [selectTemplates, h]

/-- C6 witness: with a concrete template listing, a truthy flag yields
shared templates followed by the publish templates, a falsy flag yields the
shared templates alone. -/
theorem C6_template_gating_witness :
    selectTemplates (fun s => if s == "shared" then ["sh-a", "sh-b"] else ["pub-a"])
        (some true) = ["sh-a", "sh-b", "pub-a"] ∧
    selectTemplates (fun s => if s == "shared" then ["sh-a", "sh-b"] else ["pub-a"])
        (some false) = ["sh-a", "sh-b"] :=
  ⟨((C6_template_gating _ (some true)).2.1 rfl).trans rfl,
   ((C6_template_gating _ (some false)).2.2.1 rfl).trans rfl⟩

/-- C1 counterexample: with CLI options defining `aemVersion` as the empty
string (a defined value) and the descriptor carrying
`pomProperties['aem.version'] = "6.5"`, the resolved bag holds the
descriptor's value rather than the higher-precedence one: a
lower-precedence source's value appears although a higher-precedence source
defined the property. -/
theorem C1_counterexample :
    (appInitProps ⟨none, none, some ""⟩ Bag.empty ⟨Bag.empty, some "6.5"⟩
        Bag.empty false).aemVersion = some "6.5" ∧
    (some "" : Option String) ≠ some "6.5" := by
  decide

/-- C1 (amended): root resolution applies the full defaults-merge precedence
chain options → config → POM descriptor → shared → hard-coded defaults: a
higher-precedence defined `groupId` or `version` is never displaced, the POM
tier wins when options and config are absent, the shared tier comes next,
and the hard-coded `version` fallback is applied last and only under the
defaults flag.  The resolved `aemVersion` equals the higher-precedence
accumulation `preAem` whenever that value is truthy, and the descriptor's
`aem.version` property is adopted exactly when it is itself truthy and no
higher-precedence source supplied a truthy `aemVersion` — both when nothing
was supplied at all (`preAem = none`) and when an empty string was
(`preAem = some ""`); when it is not adopted, `aemVersion` continues down
the shared tier and the flag-gated `cloud` fallback. -/
theorem C1_root_precedence (options config : Bag) (pom : Pom) (shared : Bag)
    (useDefaults : Bool) :
    (options.groupId ≠ none →
      (appInitProps options config pom shared useDefaults).groupId =
        options.groupId) ∧
    (options.groupId = none → config.groupId ≠ none →
      (appInitProps options config pom shared useDefaults).groupId =
        config.groupId) ∧
    (options.version ≠ none →
      (appInitProps options config pom shared useDefaults).version =
        options.version) ∧
    (options.version = none → config.version ≠ none →
      (appInitProps options config pom shared useDefaults).version =
        config.version) ∧
    (jsTruthy (preAem options config pom) = true →
      (appInitProps options config pom shared useDefaults).aemVersion =
        preAem options config pom) ∧
    (preAem options config pom = some "" → jsTruthy pom.aemVersionProp = true →
      (appInitProps options config pom shared useDefaults).aemVersion =
        pom.aemVersionProp) ∧
    (options.groupId = none → config.groupId = none →
      pom.direct.groupId ≠ none →
      (appInitProps options config pom shared useDefaults).groupId =
        pom.direct.groupId) ∧
    (options.groupId = none → config.groupId = none →
      pom.direct.groupId = none →
      (appInitProps options config pom shared useDefaults).groupId =
        shared.groupId) ∧
    (options.version = none → config.version = none →
      pom.direct.version ≠ none →
      (appInitProps options config pom shared useDefaults).version =
        pom.direct.version) ∧
    (options.version = none → config.version = none →
      pom.direct.version = none → shared.version ≠ none →
      (appInitProps options config pom shared useDefaults).version =
        shared.version) ∧
    (options.version = none → config.version = none →
      pom.direct.version = none → shared.version = none →
      (appInitProps options config pom shared useDefaults).version =
        (if useDefaults then some "1.0.0-SNAPSHOT" else none)) ∧
    (preAem options config pom = none → jsTruthy pom.aemVersionProp = true →
      (appInitProps options config pom shared useDefaults).aemVersion =
        pom.aemVersionProp) ∧
    (preAem options config pom = none → jsTruthy pom.aemVersionProp = false →
      shared.aemVersion ≠ none →
      (appInitProps options config pom shared useDefaults).aemVersion =
        shared.aemVersion) ∧
    (preAem options config pom = none → jsTruthy pom.aemVersionProp = false →
      shared.aemVersion = none →
      (appInitProps options config pom shared useDefaults).aemVersion =
        (if useDefaults then some "cloud" else none)) := by
  refine ⟨?_, ?_, ?_, ?_, ?_, ?_, ?_, ?_, ?_, ?_, ?_, ?_, ?_, ?_⟩
  · intro h
    obtain ⟨g, hg⟩ := Option.ne_none_iff_exists'.mp h
    rw [appInitProps_groupId, hg]
    simp
  · intro h0 h
    obtain ⟨g, hg⟩ := Option.ne_none_iff_exists'.mp h
    rw [appInitProps_groupId, h0, hg]
    simp
  · intro h
    obtain ⟨v, hv⟩ := Option.ne_none_iff_exists'.mp h
    rw [appInitProps_version, hv]
    by_cases hu : useDefaults <;> simp [hu]
  · intro h0 h
    obtain ⟨v, hv⟩ := Option.ne_none_iff_exists'.mp h
    rw [appInitProps_version, h0, hv]
    by_cases hu : useDefaults <;> simp [hu]
  · intro h
    have hpre : ∃ v, preAem options config pom = some v := by
      cases hp : preAem options config pom with
      | none => rw [hp] at h; exact absurd h (by simp)
      | some v => exact ⟨v, rfl⟩
    obtain ⟨v, hv⟩ := hpre
    have hj : jsOr (preAem options config pom) pom.aemVersionProp =
        preAem options config pom := by
      unfold jsOr
      rw [h]
      rfl
    rw [appInitProps_aemVersion, hj, hv]
    by_cases hu : useDefaults <;> simp [hu]
  · intro h0 h
    have hprop : ∃ w, pom.aemVersionProp = some w := by
      cases hp : pom.aemVersionProp with
      | none => rw [hp] at h; exact absurd h (by simp)
      | some w => exact ⟨w, rfl⟩
    obtain ⟨w, hw⟩ := hprop
    have hj : jsOr (preAem options config pom) pom.aemVersionProp =
        pom.aemVersionProp := by
      unfold jsOr
      rw [h0]
      simp
    rw [hw] at h
    rw [appInitProps_aemVersion, hj, hw]
    by_cases hu : useDefaults <;> simp [h, hu]
  · intro h1 h2 h3
    obtain ⟨g, hg⟩ := Option.ne_none_iff_exists'.mp h3
    rw [appInitProps_groupId, h1, h2, hg]
    simp
  · intro h1 h2 h3
    rw [appInitProps_groupId, h1, h2, h3]
    simp
  · intro h1 h2 h3
    obtain ⟨v, hv⟩ := Option.ne_none_iff_exists'.mp h3
    rw [appInitProps_version, h1, h2, hv]
    by_cases hu : useDefaults <;> simp [hu]
  · intro h1 h2 h3 h4
    obtain ⟨v, hv⟩ := Option.ne_none_iff_exists'.mp h4
    rw [appInitProps_version, h1, h2, h3, hv]
    by_cases hu : useDefaults <;> simp [hu]
  · intro h1 h2 h3 h4
    rw [appInitProps_version, h1, h2, h3, h4]
    by_cases hu : useDefaults <;> simp [hu]
  · intro hpre hprop
    have hw : ∃ w, pom.aemVersionProp = some w := by
      cases hp : pom.aemVersionProp with
      | none => rw [hp] at hprop; exact absurd hprop (by simp)
      | some w => exact ⟨w, rfl⟩
    obtain ⟨w, hw⟩ := hw
    rw [hw] at hprop
    rw [appInitProps_aemVersion, hpre, hw]
    by_cases hu : useDefaults <;> simp [hu, hprop]
  · intro hpre hprop h3
    obtain ⟨x, hx⟩ := Option.ne_none_iff_exists'.mp h3
    rw [appInitProps_aemVersion, hpre, hx]
    by_cases hu : useDefaults <;> simp [hu, hprop]
  · intro hpre hprop h3
    rw [appInitProps_aemVersion, hpre, h3]
    by_cases hu : useDefaults <;> simp [hu, hprop]

/-- C1 witness: options define `groupId` and `version` and the empty-string
`aemVersion` from options is overridden by the descriptor value; with
options and config absent the POM tier supplies `groupId` and `version`;
with no higher source at all the truthy descriptor property is adopted and
the hard-coded version fallback is applied last under the defaults flag. -/
theorem C1_root_precedence_witness :
    (appInitProps ⟨some "com.x", some "2.0.0", some ""⟩ ⟨none, some "1.0.0", none⟩
        ⟨Bag.empty, some "6.5"⟩ Bag.empty false).groupId = some "com.x" ∧
    (appInitProps ⟨some "com.x", some "2.0.0", some ""⟩ ⟨none, some "1.0.0", none⟩
        ⟨Bag.empty, some "6.5"⟩ Bag.empty false).version = some "2.0.0" ∧
    (appInitProps ⟨some "com.x", some "2.0.0", some ""⟩ ⟨none, some "1.0.0", none⟩
        ⟨Bag.empty, some "6.5"⟩ Bag.empty false).aemVersion = some "6.5" ∧
    (appInitProps Bag.empty Bag.empty ⟨⟨some "com.pom", some "3.0.0", none⟩, none⟩
        Bag.empty false).groupId = some "com.pom" ∧
    (appInitProps Bag.empty Bag.empty ⟨⟨some "com.pom", some "3.0.0", none⟩, none⟩
        Bag.empty false).version = some "3.0.0" ∧
    (appInitProps Bag.empty Bag.empty ⟨Bag.empty, some "6.5"⟩
        Bag.empty true).aemVersion = some "6.5" ∧
    (appInitProps Bag.empty Bag.empty ⟨Bag.empty, some "6.5"⟩
        Bag.empty true).version = some "1.0.0-SNAPSHOT" := by
  obtain ⟨a1, -, a3, -, -, a6, -⟩ :=
    C1_root_precedence ⟨some "com.x", some "2.0.0", some ""⟩
      ⟨none, some "1.0.0", none⟩ ⟨Bag.empty, some "6.5"⟩ Bag.empty false
  obtain ⟨-, -, -, -, -, -, b7, -, b9, -, -, -, -, -⟩ :=
    C1_root_precedence Bag.empty Bag.empty
      ⟨⟨some "com.pom", some "3.0.0", none⟩, none⟩ Bag.empty false
  obtain ⟨-, -, -, -, -, -, -, -, -, -, c11, c12, -, -⟩ :=
    C1_root_precedence Bag.empty Bag.empty ⟨Bag.empty, some "6.5"⟩ Bag.empty true
  exact ⟨a1 (by decide), a3 (by decide), a6 (by decide) (by decide),
    b7 rfl rfl (by decide), b9 rfl rfl (by decide),
    c12 rfl rfl, (c11 rfl rfl rfl rfl).trans rfl⟩

/-- C8 counterexample: (a) root resolution mutates its input options bag by
deleting the `generateInto` key, and rerunning resolution on the options
object as the first run left it reads a different POM and yields a
different bag; (b) even with an identical integration-tests source
snapshot, the module-global regex state makes the second resolution differ
from the first: the malformed package `com1` is discarded by the first
resolution and retained by the second. -/
theorem C8_counterexample :
    ((appInitializing ⟨some "target", Bag.empty⟩ "." Bag.empty
        (fun d => if d == "target" then ⟨Bag.empty, some "6.5"⟩
          else ⟨Bag.empty, none⟩) Bag.empty false).2 ≠
      ⟨some "target", Bag.empty⟩) ∧
    ((appInitializing (appInitializing ⟨some "target", Bag.empty⟩ "." Bag.empty
          (fun d => if d == "target" then ⟨Bag.empty, some "6.5"⟩
            else ⟨Bag.empty, none⟩) Bag.empty false).2 "." Bag.empty
        (fun d => if d == "target" then ⟨Bag.empty, some "6.5"⟩
          else ⟨Bag.empty, none⟩) Bag.empty false).1 ≠
      (appInitializing ⟨some "target", Bag.empty⟩ "." Bag.empty
        (fun d => if d == "target" then ⟨Bag.empty, some "6.5"⟩
          else ⟨Bag.empty, none⟩) Bag.empty false).1) ∧
    ((itInitializing 0 ⟨some "com1", none, false⟩ ⟨none, none⟩
        ⟨none, none⟩).1.package = none) ∧
    ((itInitializing
        (itInitializing 0 ⟨some "com1", none, false⟩ ⟨none, none⟩ ⟨none, none⟩).2
        ⟨some "com1", none, false⟩ ⟨none, none⟩ ⟨none, none⟩).1.package =
      some "com1") := by
  decide

/-- C8 (amended): resolution is deterministic in its source snapshot and
regex state, and it is pure away from the two mutating edge cases: with no
`generateInto` key in the options, root resolution returns its options bag
unchanged and re-resolving yields an identical bag; with an absent or
well-formed supplied package, the integration-tests resolution leaves the
regex state fresh and re-resolving yields an identical bag. -/
theorem C8_resolution_purity (options : AppOptions) (relDest : String)
    (config : Bag) (readPom : String → Pom) (shared : Bag) (useDefaults : Bool)
    (opts : ITOptions) (pers : ITPersisted) (par : ParentBag)
    (hgi : options.generateInto = none)
    (hpk : ∀ c ∈ (opts.package.getD "").data, isValidPackageChar c = true) :
    (appInitializing options relDest config readPom shared useDefaults).2 =
      options ∧
    (appInitializing
        (appInitializing options relDest config readPom shared useDefaults).2
        relDest config readPom shared useDefaults).1 =
      (appInitializing options relDest config readPom shared useDefaults).1 ∧
    (itInitializing 0 opts pers par).2 = 0 ∧
    (itInitializing (itInitializing 0 opts pers par).2 opts pers par).1 =
      (itInitializing 0 opts pers par).1 := by
  have hopt : ({ options with generateInto := none } : AppOptions) = options := by
    cases options with
    | mk gi bag => simp_all
  have hc1 : (appInitializing options relDest config readPom shared useDefaults).2 =
      options := by
    unfold appInitializing
    exact hopt
  have hc3 : (itInitializing 0 opts pers par).2 = 0 := by
    unfold itInitializing itDiscardInvalid
    cases hp : opts.package with
    | none => simp
    | some p =>
        by_cases hne : p = ""
        · subst hne
          simp
        · have ht : jsTruthy (some p) = true := by
            unfold jsTruthy
            exact bne_iff_ne.mpr hne
          have h0 : (regexTestG 0 p).2 = 0 := by
            refine regexTestG_zero_snd p ?_
            rw [hp] at hpk
            exact hpk
          simp [ht, h0]
  refine ⟨hc1, ?_, hc3, ?_⟩
  · rw [hc1]
  · rw [hc3]

/-- C8 witness: concrete sources with no `generateInto` key and a
well-formed package: the options bag is returned unchanged, re-resolution
is stable, and the regex state stays fresh. -/
theorem C8_resolution_purity_witness :
    (appInitializing ⟨none, ⟨some "com.example", none, none⟩⟩ "." Bag.empty
        (fun _ => ⟨Bag.empty, none⟩) Bag.empty false).2 =
      ⟨none, ⟨some "com.example", none, none⟩⟩ ∧
    (itInitializing 0 ⟨some "com.mysite", none, false⟩ ⟨none, none⟩
        ⟨none, none⟩).2 = 0 :=
  ⟨(C8_resolution_purity ⟨none, ⟨some "com.example", none, none⟩⟩ "." Bag.empty
      (fun _ => ⟨Bag.empty, none⟩) Bag.empty false
      ⟨some "com.mysite", none, false⟩ ⟨none, none⟩ ⟨none, none⟩ rfl
      (by decide)).1,
   (C8_resolution_purity ⟨none, ⟨some "com.example", none, none⟩⟩ "." Bag.empty
      (fun _ => ⟨Bag.empty, none⟩) Bag.empty false
      ⟨some "com.mysite", none, false⟩ ⟨none, none⟩ ⟨none, none⟩ rfl
      (by decide)).2.2.1⟩

end AemGen
